import Mathlib

/-!
Shallow embedding of the session context of the iron wallet backend
(`src/tauri/src/context.rs`): the session state, the wallet and network
switch transitions, peer broadcast, signer derivation and the custom
wallet serialization.  Rust `HashMap`s are modelled as association lists
with unique keys; a Rust `unwrap` panic is modelled as an explicit panic
outcome, with the mutations made before the panic still visible in the
resulting state.
-/

namespace Iron

/-- Modelled from the spec: opaque BIP39/BIP32 key material produced by the
mnemonic builder of the `ethers` library (outside this repository).  Per the
spec, derivation is a deterministic function of the seed phrase and the full
derivation path, and the derived address depends only on this key material,
never on the chain id. -/
structure SignerKey where
  mnemonic : String
  fullPath : String
deriving DecidableEq, Repr

/-- Counts maximal runs of non-space characters; the flag records whether
the previous character was inside a word. -/
def countWordsAux : List Char → Bool → Nat
  | [], _ => 0
  | c :: rest, inWord =>
    if c = ' ' then countWordsAux rest false
    else (if inWord then 0 else 1) + countWordsAux rest true

/-- The number of space-separated words of a string. -/
def countWords (s : String) : Nat := countWordsAux s.data false

/-- Modelled from the spec: validity of a BIP39 seed phrase (the real check
lives in the `ethers` library).  A phrase is valid when its word count is
one of the BIP39 lengths. -/
def validMnemonic (m : String) : Bool :=
  let n := countWords m
  n == 12 || n == 15 || n == 18 || n == 21 || n == 24

/-- Modelled from the spec: well-formedness of a derivation path (the real
parser lives in the `ethers` library); a path must open with the master
node marker. -/
def validPath (p : String) : Bool :=
  match p.data with
  | 'm' :: '/' :: _ => true
  | _ => false

/-- Modelled from the spec: the mnemonic builder pipeline
`MnemonicBuilder phrase / derivation_path / build`, a deterministic partial
derivation failing on an invalid mnemonic or a malformed path. -/
def mnemonicBuild (mnemonic fullPath : String) : Option SignerKey :=
  if validMnemonic mnemonic && validPath fullPath then some ⟨mnemonic, fullPath⟩
  else none

/-- The `ethers` signer: derived key material plus the chain id it is bound
to for signing. -/
structure EthersSigner where
  key : SignerKey
  chain_id : Nat
deriving DecidableEq, Repr

/-- `Signer::with_chain_id`: rebinds the chain id, leaving the key material
untouched. -/
def with_chain_id (s : EthersSigner) (chain_id : Nat) : EthersSigner :=
  { s with chain_id := chain_id }

/-- Modelled from the spec: the address of derived key material, a
deterministic function of the key material only. -/
def keyAddress (k : SignerKey) : String :=
  k.mnemonic ++ "@" ++ k.fullPath

/-- Modelled from the spec: `ethers::utils::to_checksum`, the deterministic
checksummed encoding of an address. -/
def to_checksum (addr : String) : String :=
  "0x" ++ addr

/-- `Wallet` (context.rs): seed phrase, derivation path template, account
index, and the derived signer (never persisted). -/
structure Wallet where
  mnemonic : String
  derivation_path : String
  idx : Nat
  signer : EthersSigner
deriving DecidableEq, Repr

/-- `Wallet::build_signer`: derives from the mnemonic under the path made
of the template with the account index appended, then binds the chain id. -/
def Wallet.build_signer (mnemonic derivation_path : String) (idx chain_id : Nat) :
    Except String EthersSigner :=
  match mnemonicBuild mnemonic (derivation_path ++ "/" ++ toString idx) with
  | none => .error "derivation error"
  | some k => .ok (with_chain_id ⟨k, 1⟩ chain_id)

/-- `Wallet::checksummed_address`. -/
def Wallet.checksummed_address (w : Wallet) : String :=
  to_checksum (keyAddress w.signer.key)

/-- `Wallet::update_chain_id`: rebuilds the signer under the new chain id
from the wallet's own seed, path template and index; the source unwraps the
result, so a failed derivation is a panic, modelled as `none`. -/
def Wallet.update_chain_id (w : Wallet) (chain_id : Nat) : Option Wallet :=
  match Wallet.build_signer w.mnemonic w.derivation_path w.idx chain_id with
  | .error _ => none
  | .ok s => some { w with signer := s }

/-- An apostrophe character, used inside the default derivation path. -/
def tick : String := String.singleton (Char.ofNat 39)

/-- The default test seed phrase from `Wallet::default`. -/
def defaultMnemonic : String :=
  "test test test test test test test test test test test junk"

/-- The default derivation path template from `Wallet::default`,
hardened-index markers included. -/
def defaultDerivationPath : String :=
  "m/44" ++ tick ++ "/60" ++ tick ++ "/0" ++ tick ++ "/0"

/-- `Wallet::default`: the well-known test wallet at index 0; the builder
leaves the signer on the default chain id 1. -/
def Wallet.default : Wallet :=
  { mnemonic := defaultMnemonic
    derivation_path := defaultDerivationPath
    idx := 0
    signer := ⟨⟨defaultMnemonic, defaultDerivationPath ++ "/0"⟩, 1⟩ }

/-- `Network` (context.rs): one chain descriptor. -/
structure Network where
  name : String
  chain_id : Nat
  rpc_url : String
  currency : String
  decimals : Nat
deriving DecidableEq, Repr

def Network.mainnet : Network :=
  { name := "mainnet", chain_id := 1
    rpc_url := "https://eth-mainnet.g.alchemy.com/v2/rTwL6BTDDWkP3tZJUc_N6shfCSR5hsTs"
    currency := "ETH", decimals := 18 }

def Network.goerli : Network :=
  { name := "goerli", chain_id := 5
    rpc_url := "https://eth-goerli.g.alchemy.com/v2/rTwL6BTDDWkP3tZJUc_N6shfCSR5hsTs"
    currency := "ETH", decimals := 18 }

def Network.anvil : Network :=
  { name := "anvil", chain_id := 31337
    rpc_url := "http://localhost:8545"
    currency := "ETH", decimals := 18 }

/-- One lowercase hexadecimal digit character. -/
def hexDigitChar (d : Nat) : Char :=
  if d < 10 then Char.ofNat (48 + d) else Char.ofNat (87 + d)

/-- Lowercase hexadecimal digits of a natural number, most significant
first, as produced by Rust's lowercase hex formatting. -/
def toHexCore (n : Nat) : List Char :=
  if _h : n < 16 then [hexDigitChar n]
  else toHexCore (n / 16) ++ [hexDigitChar (n % 16)]
decreasing_by
  exact Nat.div_lt_self (by omega) (by omega)

/-- Rust's lowercase hex formatting of a chain id with a `0x` in front, as
in `set_current_network` and `Network::chain_id_hex`. -/
def chainIdHexStr (n : Nat) : String :=
  "0x" ++ String.mk (toHexCore n)

/-- Numeric value of one hexadecimal digit character. -/
def hexCharVal (c : Char) : Nat :=
  if c.isDigit then c.toNat - 48 else c.toNat - 87

/-- Numeric value of a big-endian list of hexadecimal digit characters. -/
def hexListVal (l : List Char) : Nat :=
  l.foldl (fun a c => 16 * a + hexCharVal c) 0

/-- A JSON value, enough to state the wire messages built with the `json!`
macro and the serde projection of `Wallet`. -/
inductive Json where
  | str (s : String)
  | num (n : Nat)
  | arr (elems : List Json)
  | obj (fields : List (String × Json))

/-- The `accountsChanged` notification built in `set_wallet`. -/
def accountsChangedMsg (addr : String) : Json :=
  .obj [("method", .str "accountsChanged"), ("params", .arr [.str addr])]

/-- The `chainChanged` notification built in `set_current_network`. -/
def chainChangedMsg (n : Network) : Json :=
  .obj [("method", .str "chainChanged"),
        ("params", .obj [("chainId", .str (chainIdHexStr n.chain_id)),
                         ("networkVersion", .str n.name)])]

/-- A peer's outbound channel; only its open or closed status matters for
the send result (`UnboundedSender::send` fails exactly when the receiving
half is gone). -/
structure Chan where
  closed : Bool
deriving DecidableEq, Repr

/-- A peer's socket address, modelled as a string. -/
abbrev Addr := String

/-- `ContextInner` (context.rs): the session state.  The two `HashMap`s are
association lists with unique keys in a fixed but arbitrary iteration
order; the sled handle carries no observable content here. -/
structure ContextInner where
  wallet : Wallet
  current_network : String
  networks : List (String × Network)
  peers : List (Addr × Chan)
  db : Option Unit
deriving DecidableEq, Repr

/-- `HashMap::get` on the descriptor set. -/
def getNetwork (networks : List (String × Network)) (name : String) : Option Network :=
  (networks.find? (fun p => p.1 == name)).map (fun p => p.2)

/-- `ContextInner::get_current_network` before the unwrap: the raw lookup
of the active name in the descriptor set. -/
def ContextInner.get_current_network (st : ContextInner) : Option Network :=
  getNetwork st.networks st.current_network

/-- `ContextInner::broadcast`: sends the serialized message to each peer in
iteration order; the source unwraps each send, so the first closed channel
panics, skipping the remaining peers.  Returns the deliveries actually made
and whether a panic occurred. -/
def broadcastRun (peers : List (Addr × Chan)) (msg : Json) :
    List (Addr × Json) × Bool :=
  match peers with
  | [] => ([], false)
  | (a, c) :: rest =>
    if c.closed then ([], true)
    else
      let r := broadcastRun rest msg
      ((a, msg) :: r.1, r.2)

/-- Observable outcome of one transition: the memory state reached, the
messages handed to `broadcast`, the per-peer deliveries, and the panic if
one occurred (an unwrap failure aborts the process; mutations made before
it remain visible in `state`). -/
structure TxOut where
  state : ContextInner
  sent : List Json
  delivered : List (Addr × Json)
  panicMsg : Option String

/-- The panic message of a failed `Option` unwrap. -/
def unwrapNonePanic : String := "called unwrap on a None value"

/-- The panic message of a failed channel send unwrap inside `broadcast`. -/
def sendFailedPanic : String := "channel send failed"

/-- The panic message of a failed signer derivation unwrap inside
`Wallet::update_chain_id`. -/
def derivationPanic : String := "derivation failed"

/-- `ContextInner::set_wallet`: installs the new wallet, then broadcasts
`accountsChanged` exactly when the checksummed address changed. -/
def ContextInner.set_wallet (st : ContextInner) (w : Wallet) : TxOut :=
  let previous_address := st.wallet.checksummed_address
  let st1 := { st with wallet := w }
  let new_address := st1.wallet.checksummed_address
  if previous_address != new_address then
    let msg := accountsChangedMsg new_address
    let r := broadcastRun st1.peers msg
    ⟨st1, [msg], r.1, if r.2 then some sendFailedPanic else none⟩
  else ⟨st1, [], [], none⟩

/-- `ContextInner::set_current_network`: reads the previous descriptor,
commits the new name, reads the new descriptor (both reads unwrap their
lookup), and when the chain id changed re-derives the signer and broadcasts
`chainChanged`. -/
def ContextInner.set_current_network (st : ContextInner) (name : String) : TxOut :=
  match st.get_current_network with
  | none => ⟨st, [], [], some unwrapNonePanic⟩
  | some previous_network =>
    let st1 := { st with current_network := name }
    match st1.get_current_network with
    | none => ⟨st1, [], [], some unwrapNonePanic⟩
    | some new_network =>
      if previous_network.chain_id != new_network.chain_id then
        match st1.wallet.update_chain_id new_network.chain_id with
        | none => ⟨st1, [], [], some derivationPanic⟩
        | some w =>
          let st2 := { st1 with wallet := w }
          let msg := chainChangedMsg new_network
          let r := broadcastRun st2.peers msg
          ⟨st2, [msg], r.1, if r.2 then some sendFailedPanic else none⟩
      else ⟨st1, [], [], none⟩

/-- `ContextInner::set_current_network_by_id`: finds the first descriptor
with a matching chain id in iteration order (the source unwraps the find,
so no match is a panic) and delegates to the by-name switch. -/
def ContextInner.set_current_network_by_id (st : ContextInner) (new_chain_id : Nat) : TxOut :=
  match (st.networks.map (fun p => p.2)).find? (fun n => n.chain_id == new_chain_id) with
  | none => ⟨st, [], [], some unwrapNonePanic⟩
  | some n => st.set_current_network n.name

/-- `ContextInner::new`: default wallet, `mainnet` active, the three
built-in descriptors, no peers, no storage handle. -/
def ContextInner.new : ContextInner :=
  { wallet := Wallet.default
    current_network := "mainnet"
    networks := [("mainnet", Network.mainnet), ("goerli", Network.goerli),
                 ("anvil", Network.anvil)]
    peers := []
    db := none }

/-- The serde `Serialize` projection of `Wallet`: the camelCase renamed
fields, with the signer skipped. -/
def serializeWallet (w : Wallet) : Json :=
  .obj [("mnemonic", .str w.mnemonic),
        ("derivationPath", .str w.derivation_path),
        ("idx", .num w.idx)]

/-- The field-reading loop of `WalletVisitor::visit_map`: later occurrences
of a key overwrite earlier ones, an unknown key or a wrongly typed value is
an error. -/
def readWalletFields : List (String × Json) → Option String → Option String → Option Nat →
    Except String (Option String × Option String × Option Nat)
  | [], m, d, i => .ok (m, d, i)
  | (k, v) :: rest, m, d, i =>
    if k == "mnemonic" then
      match v with
      | .str s => readWalletFields rest (some s) d i
      | _ => .error "invalid type"
    else if k == "derivationPath" then
      match v with
      | .str s => readWalletFields rest m (some s) i
      | _ => .error "invalid type"
    else if k == "idx" then
      match v with
      | .num n => readWalletFields rest m d (some n)
      | _ => .error "invalid type"
    else .error "unknown field"

/-- The custom `Deserialize` for `Wallet` (`WalletVisitor::visit_map`):
reads the three serializable fields, then reconstructs the skipped signer
by derivation with chain id 1. -/
def deserializeWallet (j : Json) : Except String Wallet :=
  match j with
  | .obj fields =>
    match readWalletFields fields none none none with
    | .error e => .error e
    | .ok (m, d, i) =>
      match m with
      | none => .error "missing field mnemonic"
      | some mnemonic =>
        match d with
        | none => .error "missing field derivation_path"
        | some derivation_path =>
          match i with
          | none => .error "missing field idx"
          | some idx =>
            match Wallet.build_signer mnemonic derivation_path idx 1 with
            | .error _ => .error "could not build signer"
            | .ok signer => .ok ⟨mnemonic, derivation_path, idx, signer⟩
  | _ => .error "expected struct Wallet"

/-- The default wallet switched to account index 1, for concrete runs. -/
def walletIdx1 : Wallet :=
  { mnemonic := defaultMnemonic
    derivation_path := defaultDerivationPath
    idx := 1
    signer := ⟨⟨defaultMnemonic, defaultDerivationPath ++ "/1"⟩, 1⟩ }

/-- Inversion of a successful mnemonic build: the key material is exactly
the seed phrase with the full path. -/
theorem mnemonicBuild_ok_inv (m fp : String) (k : SignerKey)
    (h : mnemonicBuild m fp = some k) : k = ⟨m, fp⟩ := by
  unfold mnemonicBuild at h
  split at h
  · exact (Option.some.inj h).symm
  · exact absurd h (by simp)

/-- Inversion of a successful derivation: the signer holds exactly the key
material of the seed at the template-with-index path, bound to the
requested chain id. -/
theorem build_signer_ok_inv (m p : String) (i c : Nat) (s : EthersSigner)
    (h : Wallet.build_signer m p i c = .ok s) :
    s = ⟨⟨m, p ++ "/" ++ toString i⟩, c⟩ := by
  unfold Wallet.build_signer at h
  cases hmb : mnemonicBuild m (p ++ "/" ++ toString i) with
  | none => rw [hmb] at h; exact absurd h (by simp)
  | some k =>
    rw [hmb] at h
    have hk := mnemonicBuild_ok_inv _ _ _ hmb
    subst hk
    have hs := Except.ok.inj h
    rw [← hs]
    rfl

/-- A successful derivation at one chain id succeeds at every chain id,
with the same key material. -/
theorem build_signer_ok_any_chain (m p : String) (i c c2 : Nat) (s : EthersSigner)
    (h : Wallet.build_signer m p i c = .ok s) :
    Wallet.build_signer m p i c2 = .ok ⟨⟨m, p ++ "/" ++ toString i⟩, c2⟩ := by
  unfold Wallet.build_signer at h ⊢
  cases hmb : mnemonicBuild m (p ++ "/" ++ toString i) with
  | none => rw [hmb] at h; exact absurd h (by simp)
  | some k =>
    have hk := mnemonicBuild_ok_inv _ _ _ hmb
    subst hk
    rfl

/-- Each digit character produced is a lowercase hexadecimal digit with
the right numeric value. -/
theorem hexDigitChar_spec (d : Nat) (hd : d < 16) :
    ((hexDigitChar d).isDigit = true ∨ (hexDigitChar d).isLower = true) ∧
    hexCharVal (hexDigitChar d) = d := by
  interval_cases d <;> exact ⟨by decide, by decide⟩

/-- The hex digit list of a number consists of lowercase hexadecimal
digits and reads back as the number itself. -/
theorem toHexCore_spec (n : Nat) :
    (∀ c ∈ toHexCore n, c.isDigit = true ∨ c.isLower = true) ∧
    hexListVal (toHexCore n) = n := by
  induction n using Nat.strong_induction_on with
  | _ n ih =>
    rw [toHexCore.eq_def]
    by_cases h : n < 16
    · rw [dif_pos h]
      refine ⟨?_, ?_⟩
      · intro c hc
        rw [List.mem_singleton] at hc
        subst hc
        exact (hexDigitChar_spec n h).1
      · simpa [hexListVal] using (hexDigitChar_spec n h).2
    · rw [dif_neg h]
      have hlt : n / 16 < n := Nat.div_lt_self (by omega) (by omega)
      have ihn := ih (n / 16) hlt
      have hm : n % 16 < 16 := Nat.mod_lt _ (by omega)
      refine ⟨?_, ?_⟩
      · intro c hc
        rw [List.mem_append] at hc
        rcases hc with hc | hc
        · exact ihn.1 c hc
        · rw [List.mem_singleton] at hc
          subst hc
          exact (hexDigitChar_spec _ hm).1
      · have happ : hexListVal (toHexCore (n / 16) ++ [hexDigitChar (n % 16)]) =
            16 * hexListVal (toHexCore (n / 16)) + hexCharVal (hexDigitChar (n % 16)) := by
          simp [hexListVal, List.foldl_append]
        rw [happ, ihn.2, (hexDigitChar_spec _ hm).2]
        omega

/-- The rendered chain id string is the characters `0x` followed by the
lowercase hex digits. -/
theorem chainIdHexStr_data (n : Nat) :
    (chainIdHexStr n).data = '0' :: 'x' :: toHexCore n := by
  simp [chainIdHexStr]

/-- C1: `set_wallet` installs the new identity as the active one; when the
previous and new checksummed addresses agree nothing is sent to the peers,
and when they differ exactly one `accountsChanged` message is broadcast,
whose params list holds exactly one element, the new checksummed address. -/
theorem C1_set_wallet_accountsChanged (st : ContextInner) (w : Wallet) :
    (st.set_wallet w).state.wallet = w ∧
    (st.wallet.checksummed_address = w.checksummed_address →
      (st.set_wallet w).sent = [] ∧ (st.set_wallet w).delivered = []) ∧
    (st.wallet.checksummed_address ≠ w.checksummed_address →
      (st.set_wallet w).sent =
        [Json.obj [("method", Json.str "accountsChanged"),
                   ("params", Json.arr [Json.str w.checksummed_address])]]) := by
  by_cases h : st.wallet.checksummed_address = w.checksummed_address <;>
    simp [ContextInner.set_wallet, accountsChangedMsg, h]

/-- Witness for C1 at a concrete input: switching from the default wallet
to the index-1 wallet changes the address, so exactly the one
`accountsChanged` message is sent. -/
theorem C1_set_wallet_accountsChanged_witness :
    (ContextInner.new.set_wallet walletIdx1).state.wallet = walletIdx1 ∧
    (ContextInner.new.set_wallet walletIdx1).sent =
      [Json.obj [("method", Json.str "accountsChanged"),
                 ("params", Json.arr [Json.str walletIdx1.checksummed_address])]] := by
  have h := C1_set_wallet_accountsChanged ContextInner.new walletIdx1
  exact ⟨h.1, h.2.2 (by decide)⟩

/-- C10: `set_wallet` mutates only the wallet field: the active network
name, the descriptor set, the peer registry entries and the storage handle
are unchanged. -/
theorem C10_set_wallet_frame (st : ContextInner) (w : Wallet) :
    (st.set_wallet w).state.current_network = st.current_network ∧
    (st.set_wallet w).state.networks = st.networks ∧
    (st.set_wallet w).state.peers = st.peers ∧
    (st.set_wallet w).state.db = st.db := by
  by_cases h : st.wallet.checksummed_address = w.checksummed_address <;>
    simp [ContextInner.set_wallet, h]

/-- C4: evaluating `set_current_network` on the startup context at the
absent name: the run panics on the unwrapped lookup instead of returning a
NetworkNotFound error, and the name mutation was already committed when the
panic happened. -/
theorem C4_missing_network_panics :
    (ContextInner.new.set_current_network "does-not-exist").panicMsg = some unwrapNonePanic ∧
    (ContextInner.new.set_current_network "does-not-exist").state.current_network =
      "does-not-exist" ∧
    (ContextInner.new.set_current_network "does-not-exist").sent = [] :=
  ⟨rfl, rfl, rfl⟩

/-- C5: evaluating `set_current_network_by_id` on the startup context at a
chain id matching no descriptor: the run panics on the unwrapped find
instead of returning a NetworkNotFound error (the state is unchanged,
because the find precedes any mutation). -/
theorem C5_missing_chain_id_panics :
    (ContextInner.new.set_current_network_by_id 999).panicMsg = some unwrapNonePanic ∧
    (ContextInner.new.set_current_network_by_id 999).state = ContextInner.new ∧
    (ContextInner.new.set_current_network_by_id 999).sent = [] :=
  ⟨rfl, rfl, rfl⟩

/-- C6: evaluating `broadcast` with an open, a closed and another open peer
channel: the unwrapped send on the closed channel panics, so the third peer
receives nothing and the caller's transition is aborted, against the
claimed isolation of per-peer send failures. -/
theorem C6_broadcast_send_failure_aborts :
    broadcastRun [("peer1", ⟨false⟩), ("peer2", ⟨true⟩), ("peer3", ⟨false⟩)]
        (Json.str "msg") =
      ([("peer1", Json.str "msg")], true) :=
  rfl

/-- C3: a network switch to a resolvable name with the same chain id
commits the name, broadcasts nothing, and leaves the wallet and its key
material untouched (derivation is not invoked). -/
theorem C3_set_current_network_same_chain (st : ContextInner) (name : String)
    (prevN newN : Network)
    (hprev : st.get_current_network = some prevN)
    (hnew : getNetwork st.networks name = some newN)
    (heq : prevN.chain_id = newN.chain_id) :
    (st.set_current_network name).state.current_network = name ∧
    (st.set_current_network name).sent = [] ∧
    (st.set_current_network name).delivered = [] ∧
    (st.set_current_network name).state.wallet = st.wallet ∧
    (st.set_current_network name).panicMsg = none := by
  have h1 : ({ st with current_network := name } : ContextInner).get_current_network
      = some newN := by
    simpa [ContextInner.get_current_network] using hnew
  simp [ContextInner.set_current_network, hprev, h1, heq]

/-- Witness for C3 at a concrete input: re-selecting `mainnet` on the
startup context changes nothing and sends nothing. -/
theorem C3_set_current_network_same_chain_witness :
    (ContextInner.new.set_current_network "mainnet").state.current_network = "mainnet" ∧
    (ContextInner.new.set_current_network "mainnet").sent = [] ∧
    (ContextInner.new.set_current_network "mainnet").state.wallet = ContextInner.new.wallet := by
  have h := C3_set_current_network_same_chain ContextInner.new "mainnet"
    Network.mainnet Network.mainnet rfl rfl rfl
  exact ⟨h.1, h.2.1, h.2.2.2.1⟩

/-- C2: a network switch to a resolvable name with a different chain id
re-derives the active signer under the new chain id from the same seed
phrase, path template and account index, and broadcasts exactly one
`chainChanged` message whose chainId is the lowercase 0x-prefixed
hexadecimal rendering of the new chain id and whose networkVersion is the
new network's display name. -/
theorem C2_set_current_network_chainChanged (st : ContextInner) (name : String)
    (prevN newN : Network) (s : EthersSigner)
    (hprev : st.get_current_network = some prevN)
    (hnew : getNetwork st.networks name = some newN)
    (hdiff : prevN.chain_id ≠ newN.chain_id)
    (hbuild : Wallet.build_signer st.wallet.mnemonic st.wallet.derivation_path
        st.wallet.idx newN.chain_id = .ok s) :
    (st.set_current_network name).state.wallet.signer = s ∧
    (st.set_current_network name).state.wallet.mnemonic = st.wallet.mnemonic ∧
    (st.set_current_network name).state.wallet.derivation_path = st.wallet.derivation_path ∧
    (st.set_current_network name).state.wallet.idx = st.wallet.idx ∧
    s = ⟨⟨st.wallet.mnemonic,
          st.wallet.derivation_path ++ "/" ++ toString st.wallet.idx⟩, newN.chain_id⟩ ∧
    (st.set_current_network name).sent =
      [Json.obj [("method", Json.str "chainChanged"),
                 ("params", Json.obj
                   [("chainId", Json.str (chainIdHexStr newN.chain_id)),
                    ("networkVersion", Json.str newN.name)])]] ∧
    (chainIdHexStr newN.chain_id).data = '0' :: 'x' :: toHexCore newN.chain_id ∧
    (∀ c ∈ toHexCore newN.chain_id, c.isDigit = true ∨ c.isLower = true) ∧
    hexListVal (toHexCore newN.chain_id) = newN.chain_id := by
  have h1 : ({ st with current_network := name } : ContextInner).get_current_network
      = some newN := by
    simpa [ContextInner.get_current_network] using hnew
  have hupd : st.wallet.update_chain_id newN.chain_id =
      some { st.wallet with signer := s } := by
    simp [Wallet.update_chain_id, hbuild]
  have hs := build_signer_ok_inv _ _ _ _ _ hbuild
  refine ⟨?_, ?_, ?_, ?_, hs, ?_, chainIdHexStr_data _, (toHexCore_spec _).1,
    (toHexCore_spec _).2⟩ <;>
    simp [ContextInner.set_current_network, hprev, h1, hupd, hdiff, chainChangedMsg]

/-- Witness for C2 at a concrete input: switching from `mainnet` to
`anvil` on the startup context rebinds the signer to chain id 31337 and
sends the one `chainChanged` message. -/
theorem C2_set_current_network_chainChanged_witness :
    (ContextInner.new.set_current_network "anvil").state.wallet.signer =
      ⟨⟨defaultMnemonic, defaultDerivationPath ++ "/0"⟩, 31337⟩ ∧
    (ContextInner.new.set_current_network "anvil").sent =
      [Json.obj [("method", Json.str "chainChanged"),
                 ("params", Json.obj
                   [("chainId", Json.str (chainIdHexStr 31337)),
                    ("networkVersion", Json.str "anvil")])]] := by
  have h := C2_set_current_network_chainChanged ContextInner.new "anvil"
    Network.mainnet Network.anvil
    ⟨⟨defaultMnemonic, defaultDerivationPath ++ "/0"⟩, 31337⟩
    rfl rfl (by decide) rfl
  exact ⟨h.1, h.2.2.2.2.2.1⟩

/-- C7: signer derivation is deterministic (two successful builds from
identical inputs yield identical signers), the derivation path used is the
template with the account index appended, the signer is bound to the
requested chain id, and the derived address is independent of the chain
id. -/
theorem C7_build_signer_deterministic (m p : String) (i c1 c2 : Nat)
    (s1 s1b s2 : EthersSigner)
    (h1 : Wallet.build_signer m p i c1 = .ok s1)
    (h1b : Wallet.build_signer m p i c1 = .ok s1b)
    (h2 : Wallet.build_signer m p i c2 = .ok s2) :
    s1 = s1b ∧
    s1.key.fullPath = p ++ "/" ++ toString i ∧
    s1.key.mnemonic = m ∧
    s1.chain_id = c1 ∧
    keyAddress s1.key = keyAddress s2.key := by
  have e1 := build_signer_ok_inv _ _ _ _ _ h1
  have e1b := build_signer_ok_inv _ _ _ _ _ h1b
  have e2 := build_signer_ok_inv _ _ _ _ _ h2
  exact ⟨e1.trans e1b.symm, by rw [e1], by rw [e1], by rw [e1], by rw [e1, e2]⟩

/-- Witness for C7 at a concrete input: the default seed at index 0, built
under chain ids 1 and 31337, gives the same address either way. -/
theorem C7_build_signer_deterministic_witness :
    Wallet.default.signer = Wallet.default.signer ∧
    Wallet.default.signer.key.fullPath = defaultDerivationPath ++ "/" ++ toString 0 ∧
    Wallet.default.signer.key.mnemonic = defaultMnemonic ∧
    Wallet.default.signer.chain_id = 1 ∧
    keyAddress Wallet.default.signer.key =
      keyAddress (EthersSigner.mk ⟨defaultMnemonic, defaultDerivationPath ++ "/0"⟩ 31337).key :=
  C7_build_signer_deterministic defaultMnemonic defaultDerivationPath 0 1 31337
    Wallet.default.signer Wallet.default.signer
    ⟨⟨defaultMnemonic, defaultDerivationPath ++ "/0"⟩, 31337⟩ rfl rfl rfl

/-- C8: serializing a wallet (which persists only the mnemonic, the path
template and the index, never the derived signer) and deserializing the
result yields a wallet with the same checksummed address, for any wallet
whose signer was derived from its own fields under some chain id. -/
theorem C8_wallet_roundtrip_address (w : Wallet) (c : Nat)
    (hc : Wallet.build_signer w.mnemonic w.derivation_path w.idx c = .ok w.signer) :
    ∃ w2, deserializeWallet (serializeWallet w) = .ok w2 ∧
      w2.checksummed_address = w.checksummed_address := by
  have hb := build_signer_ok_any_chain _ _ _ _ 1 _ hc
  have hkey := build_signer_ok_inv _ _ _ _ _ hc
  have hr : readWalletFields
      [("mnemonic", Json.str w.mnemonic), ("derivationPath", Json.str w.derivation_path),
       ("idx", Json.num w.idx)] none none none =
      .ok (some w.mnemonic, some w.derivation_path, some w.idx) := rfl
  refine ⟨⟨w.mnemonic, w.derivation_path, w.idx,
    ⟨⟨w.mnemonic, w.derivation_path ++ "/" ++ toString w.idx⟩, 1⟩⟩, ?_, ?_⟩
  · simp [serializeWallet, deserializeWallet, hr, hb]
  · simp [Wallet.checksummed_address, hkey]

/-- Witness for C8 at a concrete input: the default wallet round-trips to
the same checksummed address. -/
theorem C8_wallet_roundtrip_address_witness :
    ∃ w2, deserializeWallet (serializeWallet Wallet.default) = .ok w2 ∧
      w2.checksummed_address = Wallet.default.checksummed_address :=
  C8_wallet_roundtrip_address Wallet.default 1 rfl

/-- C9: every successful wallet deserialization reconstructs the skipped
signer by derivation with chain id 1, from the wallet's own persisted
fields, whatever network was active when the state was persisted. -/
theorem C9_deserialize_chain_id_one (j : Json) (w : Wallet)
    (h : deserializeWallet j = .ok w) :
    w.signer.chain_id = 1 ∧
    Wallet.build_signer w.mnemonic w.derivation_path w.idx 1 = .ok w.signer := by
  cases j with
  | str s => exact absurd h (by simp [deserializeWallet])
  | num n => exact absurd h (by simp [deserializeWallet])
  | arr l => exact absurd h (by simp [deserializeWallet])
  | obj fields =>
    simp only [deserializeWallet] at h
    cases hr : readWalletFields fields none none none with
    | error e => rw [hr] at h; exact absurd h (by simp)
    | ok t =>
      obtain ⟨m, d, i⟩ := t
      rw [hr] at h
      cases m with
      | none => exact absurd h (by simp)
      | some mn =>
        cases d with
        | none => exact absurd h (by simp)
        | some dp =>
          cases i with
          | none => exact absurd h (by simp)
          | some ix =>
            simp only [] at h
            cases hb : Wallet.build_signer mn dp ix 1 with
            | error e => rw [hb] at h; exact absurd h (by simp)
            | ok sg =>
              rw [hb] at h
              have h2 : Except.ok (Wallet.mk mn dp ix sg) = Except.ok w := h
              have hw := Except.ok.inj h2
              subst hw
              have hk := build_signer_ok_inv _ _ _ _ _ hb
              exact ⟨by simp [hk], hb⟩

/-- Witness for C9 at a concrete input: deserializing the serialized
default wallet reconstructs exactly the chain-id-1 signer. -/
theorem C9_deserialize_chain_id_one_witness :
    Wallet.default.signer.chain_id = 1 ∧
    Wallet.build_signer Wallet.default.mnemonic Wallet.default.derivation_path
      Wallet.default.idx 1 = .ok Wallet.default.signer :=
  C9_deserialize_chain_id_one (serializeWallet Wallet.default) Wallet.default rfl

end Iron
